import Mathlib

/-!
Shallow embedding of the aptg mirror redirector (khulnasoft/aptg) in Lean 4,
together with theorems settling the claims of the specification against the
source code.  Each Lean definition is translated from the Rust source file
named in its doc comment; stateful or impure Rust code (file system, child
processes, the wall clock, the HTTP stack) is modelled by explicit state
passing and oracle parameters.  Strings are modelled by Lean `String`
(backed by `List Char`), which is faithful for the ASCII data the program
manipulates; Rust machine integers are modelled by `Nat`/`Int` (no
operation in the modelled code overflows its Rust type, as noted at each
definition).
-/

namespace Aptg

/-! ### String helpers

Models of the Rust `str` operations used by the sources (`split`,
`starts_with`, `ends_with`, `contains`, `trim`, `to_lowercase`, …),
implemented structurally over `String.data` so that they reduce inside
`decide`/`rfl` proofs.  They agree with the Rust byte-oriented operations
on ASCII input, which is the only input the program feeds them. -/

/-- Split a character list at every occurrence of `sep`
(model of Rust `str::split(sep)`, which always yields at least one piece). -/
def splitOnChar (sep : Char) : List Char → List (List Char)
  | [] => [[]]
  | c :: cs =>
    let r := splitOnChar sep cs
    if c = sep then
      [] :: r
    else
      match r with
      | [] => [[c]]
      | h :: t => (c :: h) :: t

/-- Model of Rust `str::split(sep)` collected into a vector. -/
def strSplit (sep : Char) (s : String) : List String :=
  (splitOnChar sep s.data).map (fun l => ⟨l⟩)

/-- Model of Rust `str::starts_with`. -/
def strStartsWith (s pre : String) : Bool :=
  pre.data.isPrefixOf s.data

/-- Model of Rust `str::ends_with` for a string pattern. -/
def strEndsWith (s suf : String) : Bool :=
  suf.data.isSuffixOf s.data

/-- Model of Rust `str::contains` for a string pattern (substring test). -/
def strContainsStr (s pat : String) : Bool :=
  decide (pat.data <:+: s.data)

/-- Model of Rust string slicing `&s[n..]` (ASCII: byte = char). -/
def strDrop (s : String) (n : Nat) : String :=
  ⟨s.data.drop n⟩

/-- Model of Rust `str::to_lowercase` (ASCII-faithful). -/
def strToLower (s : String) : String :=
  ⟨s.data.map Char.toLower⟩

/-- Model of Rust `str::trim_end_matches(c)` for a single character. -/
def trimEndChar (c : Char) (s : String) : String :=
  ⟨(s.data.reverse.dropWhile (fun x => x = c)).reverse⟩

/-- Model of Rust `str::trim`. -/
def strTrim (s : String) : String :=
  ⟨((s.data.dropWhile Char.isWhitespace).reverse.dropWhile Char.isWhitespace).reverse⟩

/-- Model of Rust `str::split_whitespace` (words of a character list). -/
def wordsAux : List Char → List Char → List (List Char)
  | [], acc => if acc.isEmpty then [] else [acc.reverse]
  | c :: cs, acc =>
    if c.isWhitespace then
      if acc.isEmpty then wordsAux cs [] else acc.reverse :: wordsAux cs []
    else
      wordsAux cs (c :: acc)

/-- Model of Rust `str::split_whitespace` on a `String`. -/
def splitWhitespace (s : String) : List String :=
  (wordsAux s.data []).map (fun l => ⟨l⟩)

/-- Model of Rust `str::lines`: split at newlines, dropping one trailing
empty piece, and stripping a trailing carriage return from each line. -/
def strLines (s : String) : List String :=
  let pieces := splitOnChar '\n' s.data
  let pieces := match pieces.getLast? with
    | some [] => pieces.dropLast
    | _ => pieces
  pieces.map (fun l => trimEndChar '\r' ⟨l⟩)

/-- ASCII bytes of a string (model of Rust `str::as_bytes`). -/
def strBytes (s : String) : List Nat :=
  s.data.map Char.toNat

end Aptg

namespace Aptg.Mirror

/-! ### `src/mirror/path.rs` — the archive path parser -/

/-- Rust `PathType` from `src/mirror/path.rs`. -/
inductive PathType where
  | Release
  | Package
  deriving DecidableEq, Repr

/-- Rust `DebianPath` from `src/mirror/path.rs`. -/
structure DebianPath where
  path_type : PathType
  suite : String
  component : Option String
  architecture : Option String
  filename : Option String
  deriving DecidableEq, Repr

/-- Rust `PathParser::parse_release_path` from `src/mirror/path.rs`
(`path` is the input with the `/debian/` prefix already removed). -/
def parse_release_path (path : String) : Except String DebianPath :=
  let parts := strSplit '/' path
  if parts.length < 2 then
    .error "Invalid release path format"
  else
    let suite := parts.getD 1 ""
    let caf : Option String × Option String × Option String :=
      if parts.length = 2 then
        (none, none, none)
      else if parts.length = 3 then
        (none, none, some (parts.getD 2 ""))
      else if parts.length = 4 then
        (some (parts.getD 2 ""), none, some (parts.getD 3 ""))
      else if parts.length = 5 then
        if strEndsWith (parts.getD 4 "") "/" then
          (some (parts.getD 2 ""), some (trimEndChar '/' (parts.getD 3 "")), none)
        else
          (some (parts.getD 2 ""), some (parts.getD 3 ""), some (parts.getD 4 ""))
      else
        (parts.get? 2, parts.get? 4, parts.getLast?)
    .ok
      { path_type := .Release
        suite := suite
        component := caf.1
        architecture := caf.2.1
        filename := caf.2.2 }

/-- Rust `PathParser::parse_package_path` from `src/mirror/path.rs`. -/
def parse_package_path (path : String) : Except String DebianPath :=
  let parts := (strSplit '/' path).filter (fun s => ¬ s.isEmpty)
  if parts.length < 4 then
    .error "Invalid package path format"
  else
    .ok
      { path_type := .Package
        suite := ""
        component := parts.get? 1
        architecture := none
        filename := parts.getLast? }

/-- Rust `PathParser::parse_debian_path` from `src/mirror/path.rs`. -/
def parse_debian_path (path : String) : Except String DebianPath :=
  if ¬ strStartsWith path "/debian/" then
    .error "Invalid Debian path"
  else
    let remaining := strDrop path 8
    if strStartsWith remaining "dists/" then
      parse_release_path remaining
    else if strStartsWith remaining "pool/" then
      parse_package_path remaining
    else
      .error "Unknown Debian path type"

end Aptg.Mirror

namespace Aptg.Cache

/-! ### `src/cache/cache.rs` — the cache manager

The Rust `CacheManager` holds a `RwLock<HashMap<String, CacheEntry>>` and
reads the monotone clock via `Instant`.  The map is modelled by an
association list keyed by path, and the clock by an explicit `now`
parameter (in seconds since an arbitrary origin, with `entry.created_at
≤ now` for entries created in the past).  HTTP responses are modelled by
their status code, header list, and body bytes. -/

/-- Rust `CachedResponse` from `src/cache/cache.rs` (also used as the model of a
`warp` response produced by the fetcher: status, headers, body). -/
structure CachedResponse where
  status : Nat
  headers : List (String × String)
  body : List Nat
  deriving DecidableEq, Repr

/-- Rust `CacheEntry` from `src/cache/cache.rs`. -/
structure CacheEntry where
  data : CachedResponse
  created_at : Nat
  ttl : Nat
  deriving DecidableEq, Repr

/-- Rust `TtlConfig` from `src/cache/cache.rs`. -/
structure TtlConfig where
  release_ttl : Nat
  packages_ttl : Nat
  deb_ttl : Nat
  deriving DecidableEq, Repr

/-- Rust `TtlConfig::default` from `src/cache/cache.rs` (durations in seconds). -/
def TtlConfig.default : TtlConfig :=
  { release_ttl := 6 * 3600
    packages_ttl := 12 * 3600
    deb_ttl := 365 * 24 * 3600 }

/-- The cache map state (model of the `HashMap<String, CacheEntry>`). -/
abbrev CacheState := List (String × CacheEntry)

/-- Map lookup (model of `HashMap::get`). -/
def cacheLookup (c : CacheState) (path : String) : Option CacheEntry :=
  (c.find? (fun kv => kv.1 = path)).map (·.2)

/-- Rust `CacheManager::determine_ttl` from `src/cache/cache.rs`. -/
def determine_ttl (ttl_config : TtlConfig) (path : String) : Nat :=
  if strContainsStr path "InRelease" ∨ strContainsStr path "Release" ∨
      strContainsStr path "Release.gpg" then
    ttl_config.release_ttl
  else if strContainsStr path "Packages" ∨ strContainsStr path "Sources" then
    ttl_config.packages_ttl
  else if strEndsWith path ".deb" then
    ttl_config.deb_ttl
  else
    3600

/-- Rust `CacheManager::get` from `src/cache/cache.rs`: on a fresh entry the
method rebuilds a response carrying the cached status, headers, and body
(`create_warp_response`); an expired or absent entry yields `none`.
`now` models the instant at which `entry.created_at.elapsed()` is read. -/
def cache_get (c : CacheState) (now : Nat) (path : String) : Option CachedResponse :=
  match cacheLookup c path with
  | some entry =>
    if now - entry.created_at < entry.ttl then
      some
        { status := entry.data.status
          headers := entry.data.headers
          body := entry.data.body }
    else
      none
  | none => none

/-- Rust `CacheManager::store` from `src/cache/cache.rs`.  The source computes
the TTL and then **skips the insertion** (`"Skipping cache storage for:
…"`); the map is returned unchanged. -/
def cache_store (c : CacheState) (path : String) (_response : CachedResponse)
    (ttl_config : TtlConfig) : CacheState :=
  let _ttl := determine_ttl ttl_config path
  c

/-- Rust `CacheManager::cleanup_expired` from `src/cache/cache.rs`. -/
def cleanup_expired (c : CacheState) (now : Nat) : CacheState :=
  c.filter (fun kv => now - kv.2.created_at < kv.2.ttl)

end Aptg.Cache

namespace Aptg.Policy

open Aptg.Mirror

/-! ### `src/policy/rules.rs` — the archive policy engine

Rust `HashSet<String>` fields are modelled by `List String` with
membership tests; `warp::http::Method` by a closed inductive. -/

/-- The request methods distinguished by the router and the policy engine
(model of `warp::http::Method`). -/
inductive Method where
  | GET
  | HEAD
  | POST
  | PUT
  | DELETE
  deriving DecidableEq, Repr

/-- Rust `PolicyConfig` (with its `AllowPolicy`/`DenyPolicy`/`LimitsPolicy`
substructures flattened by name) from `src/policy/rules.rs`. -/
structure PolicyConfig where
  allow_suites : List String
  allow_components : List String
  allow_architectures : List String
  deny_architectures : List String
  deny_packages : List String
  max_deb_size_mb : Nat
  max_request_rate_per_minute : Nat
  deriving DecidableEq, Repr

/-- Rust `PolicyConfig::default` from `src/policy/rules.rs`. -/
def PolicyConfig.default : PolicyConfig :=
  { allow_suites := ["bookworm", "bullseye"]
    allow_components := ["main", "contrib", "non-free"]
    allow_architectures := ["amd64", "arm64", "binary-amd64"]
    deny_architectures := ["i386"]
    deny_packages := []
    max_deb_size_mb := 500
    max_request_rate_per_minute := 100 }

/-- Rust `PolicyEngine` from `src/policy/rules.rs` (the `HashSet` caches are the
same data as the config lists; set semantics = list membership). -/
structure PolicyEngine where
  config : PolicyConfig
  deriving DecidableEq, Repr

/-- Rust `PolicyEngine::from_config` from `src/policy/rules.rs`. -/
def PolicyEngine.from_config (config : PolicyConfig) : PolicyEngine :=
  { config := config }

/-- Rust `PolicyEngine::new` from `src/policy/rules.rs`. -/
def PolicyEngine.new : PolicyEngine :=
  PolicyEngine.from_config PolicyConfig.default

/-- Rust `PolicyEngine::extract_package_name` from `src/policy/rules.rs`. -/
def extract_package_name (filename : String) : Option String :=
  if strEndsWith filename ".deb" then
    let parts := strSplit '_' filename
    if parts.length ≥ 1 then
      some (parts.getD 0 "")
    else
      none
  else
    none

/-- Rust `PolicyEngine::check_release_policy` from `src/policy/rules.rs`. -/
def check_release_policy (e : PolicyEngine) (path : DebianPath) : Except String Unit :=
  if ¬ e.config.allow_suites.contains path.suite then
    .error ("Suite '" ++ path.suite ++ "' is not allowed")
  else
    match path.component with
    | some component =>
      if ¬ e.config.allow_components.contains component then
        .error ("Component '" ++ component ++ "' is not allowed")
      else
        match path.architecture with
        | some arch =>
          if e.config.deny_architectures.contains arch then
            .error ("Architecture '" ++ arch ++ "' is explicitly denied")
          else if ¬ e.config.allow_architectures.contains arch then
            .error ("Architecture '" ++ arch ++ "' is not allowed")
          else
            .ok ()
        | none => .ok ()
    | none =>
      match path.architecture with
      | some arch =>
        if e.config.deny_architectures.contains arch then
          .error ("Architecture '" ++ arch ++ "' is explicitly denied")
        else if ¬ e.config.allow_architectures.contains arch then
          .error ("Architecture '" ++ arch ++ "' is not allowed")
        else
          .ok ()
      | none => .ok ()

/-- Rust `PolicyEngine::check_package_policy` from `src/policy/rules.rs`. -/
def check_package_policy (e : PolicyEngine) (path : DebianPath) : Except String Unit :=
  let compCheck : Except String Unit :=
    match path.component with
    | some component =>
      if ¬ e.config.allow_components.contains component then
        .error ("Component '" ++ component ++ "' is not allowed")
      else
        .ok ()
    | none => .ok ()
  match compCheck with
  | .error e => .error e
  | .ok () =>
    match path.filename with
    | some filename =>
      match extract_package_name filename with
      | some package_name =>
        if e.config.deny_packages.contains package_name then
          .error ("Package '" ++ package_name ++ "' is explicitly denied")
        else
          .ok ()
      | none => .ok ()
    | none => .ok ()

/-- Rust `PolicyEngine::check_path` from `src/policy/rules.rs`. -/
def check_path (e : PolicyEngine) (path : String) : Except String Unit :=
  match parse_debian_path path with
  | .error msg => .error ("Invalid Debian path: " ++ msg)
  | .ok debian_path =>
    match debian_path.path_type with
    | .Release => check_release_policy e debian_path
    | .Package => check_package_policy e debian_path

/-- Rust `PolicyEngine::check_request` from `src/policy/rules.rs`. -/
def check_request (e : PolicyEngine) (path : String) (method : Method) : Bool :=
  if method ≠ .GET ∧ method ≠ .HEAD then
    false
  else
    (check_path e path).isOk

/-- Rust `PolicyEngine::check_file_size` from `src/policy/rules.rs`
(`size_bytes / (1024*1024)` is Rust integer division). -/
def check_file_size (e : PolicyEngine) (size_bytes : Nat) : Except String Unit :=
  let size_mb := size_bytes / (1024 * 1024)
  if size_mb > e.config.max_deb_size_mb then
    .error ("File size exceeds maximum allowed size")
  else
    .ok ()

end Aptg.Policy

namespace Aptg.Geo

/-! ### `src/geoip/location.rs` — location records and derived scores

`f64` latitude/longitude are modelled by `ℚ`; the wall clock consulted by
`is_business_hours` (`Utc::now().hour()`) is an explicit parameter. -/

/-- Rust `LocationInfo` from `src/geoip/location.rs`. -/
structure LocationInfo where
  ip_address : String
  country_code : String
  country_name : String
  city : Option String
  region : Option String
  postal_code : Option String
  latitude : ℚ
  longitude : ℚ
  timezone : Option String
  continent_code : String
  is_in_european_union : Bool
  asn : Option Nat
  organization : Option String
  is_anonymous_proxy : Bool
  is_satellite_provider : Bool
  deriving DecidableEq, Repr

/-- Rust `LocationInfo::new` from `src/geoip/location.rs`. -/
def LocationInfo.new (ip country_code country_name : String) : LocationInfo :=
  { ip_address := ip
    country_code := country_code
    country_name := country_name
    city := none
    region := none
    postal_code := none
    latitude := 0
    longitude := 0
    timezone := none
    continent_code := ""
    is_in_european_union := false
    asn := none
    organization := none
    is_anonymous_proxy := false
    is_satellite_provider := false }

/-- Rust `LocationInfo::with_anonymous_proxy` from `src/geoip/location.rs`. -/
def LocationInfo.with_anonymous_proxy (l : LocationInfo) (is_proxy : Bool) : LocationInfo :=
  { l with is_anonymous_proxy := is_proxy }

/-- Rust `LocationInfo::with_city` from `src/geoip/location.rs`. -/
def LocationInfo.with_city (l : LocationInfo) (city : String) : LocationInfo :=
  { l with city := some city }

/-- Rust `LocationInfo::get_timezone_offset` from `src/geoip/location.rs`
(the static timezone-to-UTC-offset table). -/
def get_timezone_offset (l : LocationInfo) : Option Int :=
  match l.timezone with
  | some "UTC" => some 0
  | some "Europe/London" => some 0
  | some "Europe/Paris" => some 1
  | some "Europe/Berlin" => some 1
  | some "Europe/Rome" => some 1
  | some "Europe/Spain" => some 1
  | some "Europe/Amsterdam" => some 1
  | some "Europe/Stockholm" => some 1
  | some "Europe/Warsaw" => some 1
  | some "America/New_York" => some (-5)
  | some "America/Chicago" => some (-6)
  | some "America/Denver" => some (-7)
  | some "America/Los_Angeles" => some (-8)
  | some "America/Phoenix" => some (-7)
  | some "America/Anchorage" => some (-9)
  | some "Pacific/Auckland" => some 12
  | some "Australia/Sydney" => some 10
  | some "Asia/Tokyo" => some 9
  | some "Asia/Shanghai" => some 8
  | some "Asia/Singapore" => some 8
  | some "Asia/Dubai" => some 4
  | some "Asia/Kolkata" => some 5
  | _ => none

/-- Rust `LocationInfo::is_business_hours` from `src/geoip/location.rs`.
`utcHour` models `Utc::now().hour() as i32` (a value in `0..24`); `%` is
Rust truncated remainder, i.e. `Int.tmod`. -/
def is_business_hours (utcHour : Int) (l : LocationInfo) : Bool :=
  match get_timezone_offset l with
  | some offset =>
    let local_hour := (utcHour + offset).tmod 24
    decide (9 ≤ local_hour) ∧ decide (local_hour < 17)
  | none => false

/-- Rust `LocationInfo::get_country_grouping` from `src/geoip/location.rs`. -/
def get_country_grouping (l : LocationInfo) : String :=
  if ["US", "CA", "MX"].contains l.country_code then
    "north_america"
  else if ["GB", "DE", "FR", "IT", "ES", "NL", "BE", "AT", "CH", "SE", "NO",
      "DK", "FI", "PL", "CZ", "HU", "GR", "PT", "IE"].contains l.country_code then
    "europe"
  else if ["CN", "JP", "KR", "SG", "AU", "NZ", "IN", "TH", "MY", "ID",
      "PH"].contains l.country_code then
    "asia_pacific"
  else if ["BR", "AR", "CL", "CO", "PE", "VE", "EC", "BO", "UY",
      "PY"].contains l.country_code then
    "south_america"
  else if ["ZA", "EG", "NG", "KE", "MA", "TN", "GH"].contains l.country_code then
    "africa"
  else if ["SA", "AE", "IL", "IR", "IQ", "JO", "LB", "SY",
      "TR"].contains l.country_code then
    "middle_east"
  else
    "other"

/-- Rust `LocationInfo::get_risk_score` from `src/geoip/location.rs`.  The Rust
`score` is a `u8`; no branch underflows (the only subtraction is `50 - 10`)
or overflows (the maximum before the cap is `50 + 30 + 40 + 20 = 140 <
256`), so `Nat` arithmetic is exact. -/
def get_risk_score (l : LocationInfo) : Nat :=
  let score := 50
  let score :=
    if ["CN", "RU", "KP", "IR"].contains l.country_code then score + 30
    else if ["IN", "BR", "ID", "PK"].contains l.country_code then score + 15
    else if ["US", "CA", "GB", "DE", "FR", "JP", "AU"].contains l.country_code then
      score - 10
    else score
  let score := if l.is_anonymous_proxy then score + 40 else score
  let score := if l.is_satellite_provider then score + 20 else score
  min score 100

end Aptg.Geo

namespace Aptg.Geo

/-! ### `src/geoip/policy.rs` — the geo-policy engine -/

/-- Digits of a decimal literal read as a natural number (`none` unless the
character list is non-empty and all digits). -/
def digitsToNat? (l : List Char) : Option Nat :=
  if l.isEmpty then none
  else if l.all Char.isDigit then
    some (l.foldl (fun n c => 10 * n + (c.toNat - 48)) 0)
  else none

/-- Digits read with an empty list allowed (value 0). -/
def digitsToNat (l : List Char) : Nat :=
  l.foldl (fun n c => 10 * n + (c.toNat - 48)) 0

/-- Model of Rust `str::parse::<f64>()` on plain decimal literals
(optional sign, integer digits, optional fraction), returning the exact
rational value.  The special float syntaxes (`inf`, `NaN`, exponents) are
outside the model; every numeric string the program builds or compares is
a plain decimal. -/
def parseF64? (s : String) : Option ℚ :=
  let l := s.data
  let sn : Bool × List Char :=
    match l with
    | '-' :: rest => (true, rest)
    | '+' :: rest => (false, rest)
    | _ => (false, l)
  let magnitude : Option ℚ :=
    match splitOnChar '.' sn.2 with
    | [ip] => (digitsToNat? ip).map (fun n => mkRat (Int.ofNat n) 1)
    | [ip, fp] =>
      if ip.all Char.isDigit ∧ fp.all Char.isDigit ∧ (¬ ip.isEmpty ∨ ¬ fp.isEmpty) then
        some (mkRat (Int.ofNat (digitsToNat ip * 10 ^ fp.length + digitsToNat fp))
          (10 ^ fp.length))
      else none
    | _ => none
  magnitude.map (fun q => if sn.1 then -q else q)

/-- Rust `AsnRange` from `src/geoip/policy.rs` (`end` renamed to `stop`; values
are `u32`, modelled by `Nat`). -/
structure AsnRange where
  start : Nat
  stop : Nat
  deriving DecidableEq, Repr

/-- Rust `GeoCondition` from `src/geoip/policy.rs` (`f64` fields as `ℚ`). -/
inductive GeoCondition where
  | CountryCode (codes : List String)
  | Continent (codes : List String)
  | Region (regions : List String)
  | City (cities : List String)
  | CountryGroup (groups : List String)
  | RiskScore (min max : Option Nat)
  | Distance (latitude longitude radius_km : ℚ)
  | Timezone (zones : List String)
  | BusinessHours (enabled : Bool)
  | AnonymousProxy (blocked : Bool)
  | SatelliteProvider (blocked : Bool)
  | Asn (ranges : List AsnRange)
  | Custom (field operator value : String)
  deriving DecidableEq, Repr

/-- Rust `GeoAction` from `src/geoip/policy.rs`. -/
inductive GeoAction where
  | Allow
  | Deny
  | RateLimit (requests_per_minute : Nat)
  | LogOnly
  | Redirect (url : String)
  deriving DecidableEq, Repr

/-- Rust `GeoRule` from `src/geoip/policy.rs` (`priority` is a `u8`; only its
order matters, so `Nat` is faithful). -/
structure GeoRule where
  name : String
  condition : GeoCondition
  action : GeoAction
  priority : Nat
  enabled : Bool
  deriving DecidableEq, Repr

/-- Rust `GeoPolicy` from `src/geoip/policy.rs`. -/
structure GeoPolicy where
  enabled : Bool
  database_path : String
  rules : List GeoRule
  default_action : GeoAction
  update_interval_hours : Nat
  deriving DecidableEq, Repr

/-- Rust `PolicyResult` from `src/geoip/policy.rs`. -/
structure PolicyResult where
  action : GeoAction
  rule_name : Option String
  location : LocationInfo
  reason : String
  deriving DecidableEq, Repr

/-- Interface model of `GeoIpDatabase` (`src/geoip/database.rs`): the
external `maxminddb` reader is abstracted as its `lookup` contract,
`lookup(ip) → Result<Option<LocationInfo>>`. -/
structure GeoIpDatabase where
  lookup : String → Except String (Option LocationInfo)

/-- Rust `GeoPolicyEngine` from `src/geoip/policy.rs` (`database` is `None`
when the policy is disabled or the database failed to load). -/
structure GeoPolicyEngine where
  database : Option GeoIpDatabase
  policy : GeoPolicy

/-- Ambient inputs of condition evaluation: the UTC hour read by
`is_business_hours` and the Haversine distance of
`LocationInfo::get_distance_from` (`f64` trigonometry abstracted as an
oracle `dist location other_lat other_lon`). -/
structure GeoEnv where
  utcHour : Int
  dist : LocationInfo → ℚ → ℚ → ℚ

/-- Field lookup of `GeoPolicyEngine::evaluate_custom_field` from
`src/geoip/policy.rs` (`none` models the `_ => return false` arm). -/
def lookup_custom_field (field : String) (l : LocationInfo) : Option String :=
  if field = "country_code" then some l.country_code
  else if field = "country_name" then some l.country_name
  else if field = "city" then some (l.city.getD "")
  else if field = "region" then some (l.region.getD "")
  else if field = "postal_code" then some (l.postal_code.getD "")
  else if field = "timezone" then some (l.timezone.getD "")
  else if field = "continent_code" then some l.continent_code
  else if field = "country_grouping" then some (get_country_grouping l)
  else if field = "risk_score" then some (toString (get_risk_score l))
  else none

/-- Rust `GeoPolicyEngine::evaluate_custom_field` from `src/geoip/policy.rs`.
The numeric operators parse the field value with `parse::<f64>()` and the
rule value with `parse().unwrap_or(0.0)`. -/
def evaluate_custom_field (field operator value : String) (l : LocationInfo) : Bool :=
  match lookup_custom_field field l with
  | none => false
  | some field_value =>
    if operator = "equals" then field_value = value
    else if operator = "not_equals" then field_value ≠ value
    else if operator = "contains" then strContainsStr field_value value
    else if operator = "starts_with" then strStartsWith field_value value
    else if operator = "ends_with" then strEndsWith field_value value
    else if operator = "gt" then
      match parseF64? field_value with
      | some v => decide (v > (parseF64? value).getD 0)
      | none => false
    else if operator = "lt" then
      match parseF64? field_value with
      | some v => decide (v < (parseF64? value).getD 0)
      | none => false
    else if operator = "ge" then
      match parseF64? field_value with
      | some v => decide (v ≥ (parseF64? value).getD 0)
      | none => false
    else if operator = "le" then
      match parseF64? field_value with
      | some v => decide (v ≤ (parseF64? value).getD 0)
      | none => false
    else false

/-- Rust `GeoPolicyEngine::evaluate_condition` from `src/geoip/policy.rs`. -/
def evaluate_condition (env : GeoEnv) (condition : GeoCondition)
    (location : LocationInfo) : Bool :=
  match condition with
  | .CountryCode codes => codes.contains location.country_code
  | .Continent codes => codes.contains location.continent_code
  | .Region regions =>
    match location.region with
    | some region => regions.any (fun r => strToLower r = strToLower region)
    | none => false
  | .City cities =>
    match location.city with
    | some city => cities.any (fun c => strToLower c = strToLower city)
    | none => false
  | .CountryGroup groups => groups.contains (get_country_grouping location)
  | .RiskScore mn mx =>
    let score := get_risk_score location
    (match mn with
      | some m => decide (score ≥ m)
      | none => true) &&
    (match mx with
      | some m => decide (score ≤ m)
      | none => true)
  | .Distance latitude longitude radius_km =>
    decide (env.dist location latitude longitude ≤ radius_km)
  | .Timezone zones =>
    match location.timezone with
    | some timezone => zones.contains timezone
    | none => false
  | .BusinessHours enabled => enabled = is_business_hours env.utcHour location
  | .AnonymousProxy blocked => blocked = location.is_anonymous_proxy
  | .SatelliteProvider blocked => blocked = location.is_satellite_provider
  | .Asn ranges =>
    match location.asn with
    | some asn => ranges.any (fun range => asn ≥ range.start ∧ asn ≤ range.stop)
    | none => false
  | .Custom field operator value => evaluate_custom_field field operator value location

/-- One iteration of the `for rule in &self.policy.rules` loop of
`GeoPolicyEngine::check_request` from `src/geoip/policy.rs`: the pair is
`(matching_rule, highest_priority)`, initially `(None, 0)`. -/
def ruleStep (env : GeoEnv) (location : LocationInfo)
    (acc : Option GeoRule × Nat) (rule : GeoRule) : Option GeoRule × Nat :=
  if ¬ rule.enabled then acc
  else if evaluate_condition env rule.condition location then
    if rule.priority > acc.2 then (some rule, rule.priority) else acc
  else acc

/-- Rust `GeoPolicyEngine::check_request` from `src/geoip/policy.rs` (the
`_path` argument is unused by the source as well). -/
def check_request (env : GeoEnv) (engine : GeoPolicyEngine)
    (ip_address : String) (_path : String) : Except String PolicyResult :=
  if ¬ engine.policy.enabled then
    .ok
      { action := engine.policy.default_action
        rule_name := none
        location := LocationInfo.new ip_address "Unknown" "Unknown"
        reason := "GeoIP policy disabled" }
  else
    match engine.database with
    | none => .error "GeoIP database not available"
    | some database =>
      match database.lookup ip_address with
      | .error e => .error e
      | .ok lookupRes =>
        let location := lookupRes.getD (LocationInfo.new ip_address "Unknown" "Unknown")
        let sel := engine.policy.rules.foldl (ruleStep env location) (none, 0)
        match sel.1 with
        | some rule =>
          .ok
            { action := rule.action
              rule_name := some rule.name
              location := location
              reason := "Matched rule: " ++ rule.name }
        | none =>
          .ok
            { action := engine.policy.default_action
              rule_name := none
              location := location
              reason := "No matching rule" }

/-! Specification-side description of the rule-selection loop, used to
state what `check_request` actually computes. -/

/-- The enabled rules whose condition matches the location, in sequence
order. -/
def matchingRules (env : GeoEnv) (location : LocationInfo)
    (rules : List GeoRule) : List GeoRule :=
  rules.filter (fun r => r.enabled && evaluate_condition env r.condition location)

/-- The largest priority among a list of rules (0 for the empty list). -/
def maxPriority (rs : List GeoRule) : Nat :=
  rs.foldr (fun r m => max r.priority m) 0

/-- The rule the loop of `check_request` selects: the first matching
enabled rule of maximal priority, provided that maximal priority is
positive — a matching rule of priority 0 is never selected. -/
def selectedRule (env : GeoEnv) (location : LocationInfo)
    (rules : List GeoRule) : Option GeoRule :=
  let cands := matchingRules env location rules
  if maxPriority cands > 0 then
    cands.find? (fun r => r.priority = maxPriority cands)
  else
    none

/-- The accumulator update of the selection loop on a rule that passes
both guards (enabled and matching): what `ruleStep` then does. -/
def prioStep (acc : Option GeoRule × Nat) (r : GeoRule) : Option GeoRule × Nat :=
  if r.priority > acc.2 then (some r, r.priority) else acc

end Aptg.Geo

namespace Aptg.Hash

/-! ### SHA-256 and `src/verify/hashes.rs` — the hash verifier

`HashVerifier::verify_package_hash` delegates the digest to the external
`sha2` crate; the crate computes standard FIPS 180-4 SHA-256, implemented
here over byte lists (`Nat < 256`) with 32-bit words as `Nat` reduced
modulo `2^32`. -/

/-- The constant 2^32. -/
def M32 : Nat := 4294967296

/-- Reduce to a 32-bit word. -/
def w32 (n : Nat) : Nat := n % M32

/-- Rotate right on 32-bit words. -/
def rotr (n x : Nat) : Nat := w32 ((x >>> n) ||| (x <<< (32 - n)))

/-- SHA-256 `σ0`. -/
def ssig0 (x : Nat) : Nat := (rotr 7 x) ^^^ (rotr 18 x) ^^^ (x >>> 3)

/-- SHA-256 `σ1`. -/
def ssig1 (x : Nat) : Nat := (rotr 17 x) ^^^ (rotr 19 x) ^^^ (x >>> 10)

/-- SHA-256 `Σ0`. -/
def bsig0 (x : Nat) : Nat := (rotr 2 x) ^^^ (rotr 13 x) ^^^ (rotr 22 x)

/-- SHA-256 `Σ1`. -/
def bsig1 (x : Nat) : Nat := (rotr 6 x) ^^^ (rotr 11 x) ^^^ (rotr 25 x)

/-- SHA-256 `Ch`. -/
def ch (x y z : Nat) : Nat := (x &&& y) ^^^ ((x ^^^ 4294967295) &&& z)

/-- SHA-256 `Maj`. -/
def maj (x y z : Nat) : Nat := (x &&& y) ^^^ (x &&& z) ^^^ (y &&& z)

/-- The SHA-256 round constants. -/
def K : List Nat :=
  [1116352408, 1899447441, 3049323471, 3921009573, 961987163,
   1508970993, 2453635748, 2870763221, 3624381080, 310598401,
   607225278, 1426881987, 1925078388, 2162078206, 2614888103,
   3248222580, 3835390401, 4022224774, 264347078, 604807628,
   770255983, 1249150122, 1555081692, 1996064986, 2554220882,
   2821834349, 2952996808, 3210313671, 3336571891, 3584528711,
   113926993, 338241895, 666307205, 773529912, 1294757372,
   1396182291, 1695183700, 1986661051, 2177026350, 2456956037,
   2730485921, 2820302411, 3259730800, 3345764771, 3516065817,
   3600352804, 4094571909, 275423344, 430227734, 506948616,
   659060556, 883997877, 958139571, 1322822218, 1537002063,
   1747873779, 1955562222, 2024104815, 2227730452, 2361852424,
   2428436474, 2756734187, 3204031479, 3329325298]

/-- The SHA-256 initial hash state. -/
def H0 : List Nat :=
  [1779033703, 3144134277, 1013904242, 2773480762,
   1359893119, 2600822924, 528734635, 1541459225]

/-- FIPS 180-4 padding of a byte message. -/
def padMessage (msg : List Nat) : List Nat :=
  let L := msg.length
  let zeros := (119 - L % 64) % 64
  msg ++ [0x80] ++ List.replicate zeros 0 ++
    (List.range 8).map (fun i => ((8 * L) >>> (8 * (7 - i))) % 256)

/-- Read a 64-byte block as sixteen big-endian 32-bit words. -/
def toWords (block : List Nat) : List Nat :=
  (List.range 16).map (fun i =>
    block.getD (4 * i) 0 * 16777216 + block.getD (4 * i + 1) 0 * 65536 +
    block.getD (4 * i + 2) 0 * 256 + block.getD (4 * i + 3) 0)

/-- Extend sixteen schedule words to sixty-four. -/
def extendSchedule (w : List Nat) : List Nat :=
  (List.range 48).foldl
    (fun w _ =>
      let t := w.length
      w ++ [w32 (ssig1 (w.getD (t - 2) 0) + w.getD (t - 7) 0 +
        ssig0 (w.getD (t - 15) 0) + w.getD (t - 16) 0)])
    w

/-- One compression round, on the `[a,b,c,d,e,f,g,h]` state, with
`wk = (W[t], K[t])`. -/
def compressStep (state : List Nat) (wk : Nat × Nat) : List Nat :=
  match state with
  | [a, b, c, d, e, f, g, h] =>
    let t1 := w32 (h + bsig1 e + ch e f g + wk.2 + wk.1)
    let t2 := w32 (bsig0 a + maj a b c)
    [w32 (t1 + t2), a, b, c, w32 (d + t1), e, f, g]
  | s => s

/-- Process one 64-byte block. -/
def processBlock (h : List Nat) (block : List Nat) : List Nat :=
  let w := extendSchedule (toWords block)
  let s := (w.zip K).foldl compressStep h
  (h.zip s).map (fun p => w32 (p.1 + p.2))

/-- Cut a padded message into 64-byte blocks (`fuel ≥ length` suffices;
fuel keeps the recursion structural). -/
def chunksAux : Nat → List Nat → List (List Nat)
  | 0, _ => []
  | _, [] => []
  | fuel + 1, l => l.take 64 :: chunksAux fuel (l.drop 64)

/-- The eight 32-bit words of the SHA-256 digest of a byte message. -/
def sha256Words (msg : List Nat) : List Nat :=
  let padded := padMessage msg
  (chunksAux padded.length padded).foldl processBlock H0

/-- A lower-case hexadecimal digit. -/
def hexDigitChar (n : Nat) : Char :=
  if n < 10 then Char.ofNat (48 + n) else Char.ofNat (87 + n)

/-- Eight lower-case hex digits of a 32-bit word. -/
def wordToHex (w : Nat) : List Char :=
  (List.range 8).map (fun i => hexDigitChar ((w >>> (4 * (7 - i))) % 16))

/-- The lower-case hexadecimal SHA-256 digest, as produced by
`format!("{:x}", hasher.finalize())` in `src/verify/hashes.rs`. -/
def sha256Hex (msg : List Nat) : String :=
  ⟨((sha256Words msg).map wordToHex).flatten⟩

/-- Rust `HashVerifier::verify_package_hash` from `src/verify/hashes.rs`: on a
digest match it returns `Ok(true)`; on a mismatch it returns
`Err(anyhow!("SHA256 hash verification failed"))`. -/
def verify_package_hash (data : List Nat) (expected_hash : String) :
    Except String Bool :=
  let calculated_hash := sha256Hex data
  if calculated_hash = expected_hash then
    .ok true
  else
    .error "SHA256 hash verification failed"

end Aptg.Hash


namespace Aptg.Gpg

/-! ### `src/verify/gpg.rs` — the signature verifier

`verify_inrelease` and `verify_release_with_sig` write the bytes to fixed
paths under `/tmp`, run the external `gpg` binary, delete the temporary
files, and parse the process output.  The file system is modelled by the
list of temporary paths currently present, and the impure operations by a
`GpgWorld` oracle: `write_ok p` tells whether `fs::write(p, …)` succeeds
(a failed write models an open failure, creating no file), and
`run_output` is `some out` when `Command::output()` returns the process
output `out` and `none` when spawning the command itself fails (the
`.output()?` early return). -/

/-- Rust `GpgVerificationResult` from `src/verify/gpg.rs`. -/
structure GpgVerificationResult where
  valid : Bool
  key_id : Option String
  signature_date : String
  trust_level : String
  error_message : Option String
  deriving DecidableEq, Repr

/-- Model of `std::process::Output` as consumed by `parse_gpg_output`. -/
structure ProcessOutput where
  success : Bool
  stdout : String
  stderr : String
  deriving DecidableEq, Repr

/-- The oracle for the impure steps of the verifier. -/
structure GpgWorld where
  write_ok : String → Bool
  run_output : Option ProcessOutput

/-- The model file-system state: temporary paths currently present. -/
abbrev FsState := List String

/-- Rust `fs::write` on the model state (overwrite keeps one copy). -/
def fsWrite (fs : FsState) (path : String) : FsState :=
  if fs.contains path then fs else path :: fs

/-- Rust `fs::remove_file` on the model state. -/
def fsRemove (fs : FsState) (path : String) : FsState :=
  fs.filter (fun p => p ≠ path)

/-- Rust `GpgVerifier::parse_gpg_output` from `src/verify/gpg.rs`.  On process
success the key id is taken from the lines containing `"using RSA key"`
(third whitespace-separated token, trailing comma trimmed; a later match
overwrites an earlier one); on failure the result is invalid with the
stderr text (or a fixed message when stderr is empty). -/
def parse_gpg_output (out : ProcessOutput) : GpgVerificationResult :=
  if out.success then
    { valid := true
      key_id :=
        (strLines out.stdout).foldl
          (fun acc line =>
            if strContainsStr line "using RSA key" then
              match (splitWhitespace line).get? 2 with
              | some key_part => some (trimEndChar ',' key_part)
              | none => acc
            else acc)
          none
      signature_date := ""
      trust_level := "ultimate"
      error_message := none }
  else
    { valid := false
      key_id := none
      signature_date := ""
      trust_level := "unknown"
      error_message :=
        some (if out.stderr.isEmpty then "GPG verification failed" else out.stderr) }

/-- Rust `GpgVerifier::verify_inrelease` from `src/verify/gpg.rs`, with the
file-system state threaded explicitly.  Note that the
`Command::output()?` early return (`run_output = none`) happens **after**
the temporary file is written and **before** it is removed. -/
def verify_inrelease (w : GpgWorld) (fs : FsState) (_inrelease_data : List Nat) :
    Except String GpgVerificationResult × FsState :=
  let temp_path := "/tmp/inrelease_temp"
  if ¬ w.write_ok temp_path then
    (.error "failed to write temporary file", fs)
  else
    let fs := fsWrite fs temp_path
    match w.run_output with
    | none => (.error "failed to run gpg", fs)
    | some output =>
      let fs := fsRemove fs temp_path
      (.ok (parse_gpg_output output), fs)

/-- Rust `GpgVerifier::verify_release_with_sig` from `src/verify/gpg.rs`, with
the file-system state threaded explicitly.  The two `fs::write(…)?` and
the `Command::output()?` are early returns; only the success path removes
the two temporary files. -/
def verify_release_with_sig (w : GpgWorld) (fs : FsState)
    (_release_data _signature_data : List Nat) :
    Except String GpgVerificationResult × FsState :=
  let release_path := "/tmp/release_temp"
  let sig_path := "/tmp/release_sig_temp"
  if ¬ w.write_ok release_path then
    (.error "failed to write temporary file", fs)
  else
    let fs := fsWrite fs release_path
    if ¬ w.write_ok sig_path then
      (.error "failed to write temporary file", fs)
    else
      let fs := fsWrite fs sig_path
      match w.run_output with
      | none => (.error "failed to run gpg", fs)
      | some output =>
        let fs := fsRemove fs release_path
        let fs := fsRemove fs sig_path
        (.ok (parse_gpg_output output), fs)

end Aptg.Gpg

namespace Aptg.Audit

/-! ### `src/audit/log.rs` — the audit logger

The logger serializes events to the tracing sink; for the pipeline claims
what matters is **which** events each branch emits and in which order, so
the router model records the sequence of event types.  Each
`AuditLogger::log_*` method emits exactly one event of the matching
type. -/

/-- Rust `AuditEventType` from `src/audit/log.rs`. -/
inductive AuditEventType where
  | Request
  | CacheHit
  | FetchSuccess
  | FetchError
  | PolicyViolation
  | VerificationFailed
  | VerificationSuccess
  | GeoIPDenied
  | GeoIPAllowed
  | GeoIPRateLimit
  | GeoIPRedirect
  | GeoIPLogOnly
  | GeoIPError
  deriving DecidableEq, Repr

end Aptg.Audit

namespace Aptg.Server

open Aptg.Cache Aptg.Policy Aptg.Geo Aptg.Gpg Aptg.Audit

/-! ### `src/server/router.rs` — the request handler

`handle_debian_request` is `async` and composes the collaborators; its
effects are modelled by a `RouterEnv` carrying the cache map, the clock,
the engines, and oracles for the upstream fetch and the gpg child
process.  The reply is the status line plus the body the router actually
builds: one of the three JSON shapes, or the upstream/cache-built
response passed through. -/

/-- The JSON bodies built by `handle_debian_request`. -/
inductive JsonBody where
  | cachedTrue
  | errorMsg (msg : String)
  | redirect (url : String)
  deriving DecidableEq, Repr

/-- A reply of the router: a JSON reply with a status code, or an HTTP
response passed through verbatim. -/
inductive RouterReply where
  | jsonReply (status : Nat) (body : JsonBody)
  | rawReply (response : CachedResponse)
  deriving DecidableEq, Repr

/-- The ambient state and oracles of one `handle_debian_request` call:
the cache map and clock, the engines, the upstream fetch outcome
(`MirrorFetcher::fetch` returns `Err` for transport errors and non-2xx
statuses), and the gpg process oracle. -/
structure RouterEnv where
  cacheState : CacheState
  ttl_config : TtlConfig
  now : Nat
  policy : PolicyEngine
  geoEngine : GeoPolicyEngine
  geoEnv : GeoEnv
  fetchResult : Except String CachedResponse
  gpgWorld : GpgWorld

/-- Rust `extract_client_ip` from `src/server/router.rs` (header lookup is
case-insensitive, as in `warp::http::HeaderMap`). -/
def extract_client_ip (headers : List (String × String))
    (forwarded_for : Option String) : Option String :=
  match forwarded_for with
  | some forwarded => some (strTrim ((strSplit ',' forwarded).getD 0 ""))
  | none =>
    match headers.find? (fun kv => strToLower kv.1 = "x-real-ip") with
    | some kv => some kv.2
    | none =>
      match headers.find? (fun kv => strToLower kv.1 = "x-forwarded") with
      | some kv => some kv.2
      | none => none

/-- Rust `extract_response_bytes` from `src/server/router.rs` — the source is
a stub that returns an empty vector. -/
def extract_response_bytes (_response : CachedResponse) : List Nat := []

/-- The tail of `handle_debian_request` from `src/server/router.rs` that
runs once the geo step has decided to continue: the upstream fetch, the
cache admission, and the signature verification of release indices
(lines 126–159 of the source, hoisted into a named function so the
fall-through from the `Allow`/`LogOnly`/no-ip/geo-error branches can be
shared). -/
def fetch_and_verify (env : RouterEnv) (path : String)
    (events : List AuditEventType) : RouterReply × List AuditEventType :=
  match env.fetchResult with
  | .ok response =>
    let events := events ++ [.FetchSuccess]
    let _stored := cache_store env.cacheState path response env.ttl_config
    if strEndsWith path "InRelease" ∨ strEndsWith path "Release" then
      let response_bytes := extract_response_bytes response
      match (Gpg.verify_inrelease env.gpgWorld [] response_bytes).1 with
      | .ok verification_result =>
        if verification_result.valid then
          (.rawReply response, events ++ [.VerificationSuccess])
        else
          (.jsonReply 400 (.errorMsg "GPG verification failed"),
            events ++ [.VerificationFailed])
      | .error _ => (.rawReply response, events)
    else
      (.rawReply response, events)
  | .error e =>
    (.jsonReply 500 (.errorMsg e), events ++ [.FetchError])

/-- Rust `handle_debian_request` from `src/server/router.rs`, returning the
reply together with the sequence of audit events emitted. -/
def handle_debian_request (env : RouterEnv) (path_tail : String)
    (method : Method) (headers : List (String × String))
    (forwarded_for : Option String) : RouterReply × List AuditEventType :=
  let path := "/debian/" ++ path_tail
  let client_ip := extract_client_ip headers forwarded_for
  let events : List AuditEventType := [.Request]
  match cache_get env.cacheState env.now path with
  | some _cached_response =>
    (.jsonReply 200 .cachedTrue, events ++ [.CacheHit])
  | none =>
    if ¬ Policy.check_request env.policy path method then
      (.jsonReply 403 (.errorMsg "Access denied by policy"), events ++ [.Request])
    else
      match client_ip with
      | none => fetch_and_verify env path events
      | some ip =>
        match Geo.check_request env.geoEnv env.geoEngine ip path with
        | .error _ => fetch_and_verify env path events
        | .ok action_result =>
          match action_result.action with
          | .Deny =>
            (.jsonReply 403 (.errorMsg "Access denied by GeoIP policy"),
              events ++ [.GeoIPDenied])
          | .RateLimit _ =>
            (.jsonReply 429 (.errorMsg "Rate limited by GeoIP policy"),
              events ++ [.GeoIPRateLimit])
          | .Allow => fetch_and_verify env path (events ++ [.GeoIPAllowed])
          | .LogOnly => fetch_and_verify env path (events ++ [.GeoIPLogOnly])
          | .Redirect url =>
            (.jsonReply 302 (.redirect url), events ++ [.GeoIPRedirect])

end Aptg.Server

namespace Aptg

open Aptg.Mirror Aptg.Cache Aptg.Policy Aptg.Geo Aptg.Gpg Aptg.Audit Aptg.Server

/-! ### Decidability helper and concrete fixtures used by the theorems -/

instance {ε α : Type _} [DecidableEq ε] [DecidableEq α] : DecidableEq (Except ε α) := fun a b =>
  match a, b with
  | .ok x, .ok y => if h : x = y then .isTrue (by simp [h]) else .isFalse (by simp [h])
  | .error x, .error y => if h : x = y then .isTrue (by simp [h]) else .isFalse (by simp [h])
  | .ok _, .error _ => .isFalse (by simp)
  | .error _, .ok _ => .isFalse (by simp)

/-- A United-States location record as built by `LocationInfo::new`. -/
def locUS : LocationInfo := LocationInfo.new "1.2.3.4" "US" "United States"

/-- A fixed ambient-input oracle for geo evaluation (UTC midnight, zero
distance oracle). -/
def env0 : GeoEnv := { utcHour := 0, dist := fun _ _ _ => 0 }

/-- A database stub whose lookup always succeeds with the given
location. -/
def dbOf (loc : LocationInfo) : GeoIpDatabase := { lookup := fun _ => .ok (some loc) }

/-- An enabled priority-0 rule whose condition matches `locUS` and whose
action is `Deny`. -/
def rule0 : GeoRule :=
  { name := "deny-us"
    condition := .CountryCode ["US"]
    action := .Deny
    priority := 0
    enabled := true }

/-- An enabled priority-2 rule whose condition matches `locUS` and whose
action is `Deny`. -/
def ruleP2 : GeoRule :=
  { name := "deny-us-p2"
    condition := .CountryCode ["US"]
    action := .Deny
    priority := 2
    enabled := true }

/-- An enabled geo engine whose only rule is `rule0` and whose default
action is `Allow`. -/
def engineP0 : GeoPolicyEngine :=
  { database := some (dbOf locUS)
    policy :=
      { enabled := true
        database_path := "geoip/GeoLite2-City.mmdb"
        rules := [rule0]
        default_action := .Allow
        update_interval_hours := 24 } }

/-- An enabled geo engine whose only rule is `ruleP2` and whose default
action is `Allow`. -/
def engineP2 : GeoPolicyEngine :=
  { database := some (dbOf locUS)
    policy :=
      { enabled := true
        database_path := "geoip/GeoLite2-City.mmdb"
        rules := [ruleP2]
        default_action := .Allow
        update_interval_hours := 24 } }

/-- An enabled geo engine whose database is unavailable (the load failed,
so `database` is `None`). -/
def engineNoDb : GeoPolicyEngine :=
  { database := none
    policy :=
      { enabled := true
        database_path := "geoip/GeoLite2-City.mmdb"
        rules := []
        default_action := .Allow
        update_interval_hours := 24 } }

/-- A disabled geo engine (the `GeoPolicy::default` configuration has
`enabled = false`, so the router's geo step always continues). -/
def engineOff : GeoPolicyEngine :=
  { database := none
    policy :=
      { enabled := false
        database_path := "geoip/GeoLite2-City.mmdb"
        rules := []
        default_action := .Allow
        update_interval_hours := 24 } }

/-- A cache entry distinguishable from the router's fixed cache-hit JSON:
status 204, one header, body `[7, 7]`, fresh for 3600 s from time 0. -/
def entry0 : CacheEntry :=
  { data :=
      { status := 204
        headers := [("content-type", "application/octet-stream")]
        body := [7, 7] }
    created_at := 0
    ttl := 3600 }

/-- A concrete upstream response. -/
def resp0 : CachedResponse :=
  { status := 200, headers := [("content-type", "text/plain")], body := [1, 2, 3] }

/-- A gpg-process oracle for which every `fs::write` succeeds but
spawning the `gpg` command fails (`Command::output()` returns `Err`). -/
def gpgWorldNoRun : GpgWorld := { write_ok := fun _ => true, run_output := none }

/-- A gpg-process oracle for which the `gpg` command runs and reports a
failed verification. -/
def gpgWorldFail : GpgWorld :=
  { write_ok := fun _ => true
    run_output := some { success := false, stdout := "", stderr := "bad signature" } }

/-- The router environment of the cache-hit scenario: the cache holds a
valid entry for `/debian/dists/bookworm/InRelease` at time 10. -/
def envC1 : RouterEnv :=
  { cacheState := [("/debian/dists/bookworm/InRelease", entry0)]
    ttl_config := TtlConfig.default
    now := 10
    policy := PolicyEngine.new
    geoEngine := engineOff
    geoEnv := env0
    fetchResult := .error "unused"
    gpgWorld := gpgWorldNoRun }

/-- The router environment of the policy-rejection scenario: an empty
cache and the default engines. -/
def envC3 : RouterEnv :=
  { cacheState := []
    ttl_config := TtlConfig.default
    now := 0
    policy := PolicyEngine.new
    geoEngine := engineOff
    geoEnv := env0
    fetchResult := .error "unused"
    gpgWorld := gpgWorldNoRun }

/-- The router environment of the database-missing scenario: an empty
cache, the enabled no-database geo engine, and a successful fetch. -/
def envC4 : RouterEnv :=
  { cacheState := []
    ttl_config := TtlConfig.default
    now := 0
    policy := PolicyEngine.new
    geoEngine := engineNoDb
    geoEnv := env0
    fetchResult := .ok resp0
    gpgWorld := gpgWorldNoRun }

/-! ### Claim theorems -/

/-- Claim C1.  The claim states that on a valid cache hit the router's
response carries exactly the cached status, headers, and body.  The code
disagrees: `CacheManager::get` does rebuild the cached response, but
`handle_debian_request` binds it as `_cached_response`, discards it, and
replies `200 OK` with the fixed JSON body `{"cached": true}`.  This
theorem evaluates the router at the failing input: the cache holds a
valid entry with status 204 and body `[7, 7]`, the `CacheHit` event is
emitted, yet the reply is the fixed JSON, not the cached response. -/
theorem C1_cache_hit_reply_is_fixed_json :
    cache_get envC1.cacheState envC1.now "/debian/dists/bookworm/InRelease" =
      some { status := 204
             headers := [("content-type", "application/octet-stream")]
             body := [7, 7] } ∧
    handle_debian_request envC1 "dists/bookworm/InRelease" .GET [] none =
      (.jsonReply 200 .cachedTrue, [.Request, .CacheHit]) := by
  decide

/-- Claim C2.  The claim states that `store(k, r)` admits `r` under `k`
with TTL `determine_ttl(k)`, so a `get(k)` before expiry returns it.  The
code disagrees: `CacheManager::store` computes the TTL and then skips the
insertion, leaving the map unchanged, so a `get` right after a `store`
into an empty cache returns nothing even though the TTL (6 h for this
key) has not elapsed. -/
theorem C2_store_skips_admission :
    determine_ttl TtlConfig.default "/debian/dists/bookworm/InRelease" = 21600 ∧
    (∀ (c : CacheState) (k : String) (r : CachedResponse) (t : TtlConfig),
      cache_store c k r t = c) ∧
    cache_get
      (cache_store [] "/debian/dists/bookworm/InRelease" resp0 TtlConfig.default)
      0 "/debian/dists/bookworm/InRelease" = none := by
  exact ⟨by decide, fun _ _ _ _ => rfl, by decide⟩

/-- Claim C3.  The claim states that a request rejected by the archive
policy engine (here: method `POST`) yields a `403` JSON error **and a
`PolicyViolation` audit event**.  The code disagrees on the event: the
rejection branch of `handle_debian_request` calls `log_request` again, so
the emitted sequence is `[Request, Request]` and `PolicyViolation` (whose
`AuditLogger::log_policy_violation` emitter exists but is never called by
the router) does not appear. -/
theorem C3_policy_rejection_emits_request_again :
    Policy.check_request PolicyEngine.new "/debian/dists/bookworm/InRelease" .POST
      = false ∧
    handle_debian_request envC3 "dists/bookworm/InRelease" .POST [] none =
      (.jsonReply 403 (.errorMsg "Access denied by policy"), [.Request, .Request]) ∧
    AuditEventType.PolicyViolation ∉
      (handle_debian_request envC3 "dists/bookworm/InRelease" .POST [] none).2 := by
  decide

/-- Claim C4, counterexample.  The claim states that with the geo engine
enabled and the database unavailable, evaluation yields `default_action`
(with a database-missing reason) rather than failing with an error.  The
code disagrees: `GeoPolicyEngine::check_request` returns
`Err("GeoIP database not available")` in exactly that situation. -/
theorem C4_db_missing_is_an_error :
    engineNoDb.policy.enabled = true ∧
    engineNoDb.database = none ∧
    Geo.check_request env0 engineNoDb "1.2.3.4" "/debian/dists/bookworm/InRelease" =
      .error "GeoIP database not available" :=
  ⟨rfl, rfl, rfl⟩

/-- Claim C5, counterexample.  The claim states that an enabled matching
rule of any priority — including priority 0 — is selected over
`default_action`.  The code disagrees: the loop starts with
`highest_priority = 0` and takes a rule only when `priority >
highest_priority`, so the enabled, matching, priority-0 `Deny` rule of
`engineP0` is skipped and the default `Allow` is returned. -/
theorem C5_priority_zero_rule_is_never_selected :
    rule0.enabled = true ∧
    rule0.priority = 0 ∧
    rule0.action = .Deny ∧
    Geo.evaluate_condition env0 rule0.condition locUS = true ∧
    Geo.check_request env0 engineP0 "1.2.3.4" "/debian/dists/bookworm/InRelease" =
      .ok { action := .Allow
            rule_name := none
            location := locUS
            reason := "No matching rule" } := by
  refine ⟨rfl, rfl, rfl, by decide, by decide⟩

/-- Claim C6, counterexample.  The claim states that a numeric `Custom`
condition is false whenever **either** side fails to parse as a float.
The code disagrees for the rule side: `value.parse().unwrap_or(0.0)`
replaces an unparseable rule value by `0.0`, so `risk_score gt
"not-a-number"` evaluates to `true` for a location of score 40. -/
theorem C6_unparseable_rule_value_defaults_to_zero :
    parseF64? "not-a-number" = none ∧
    get_risk_score locUS = 40 ∧
    evaluate_custom_field "risk_score" "gt" "not-a-number" locUS = true := by
  decide

/-- Claim C7, counterexample.  The claim states that every successfully
parsed `Release` path has a non-empty suite.  The code disagrees:
`"/debian/dists/"` splits into `["dists", ""]`, passes the length check,
and parses successfully with `suite = ""`. -/
theorem C7_release_suite_can_be_empty :
    parse_debian_path "/debian/dists/" =
      .ok { path_type := .Release
            suite := ""
            component := none
            architecture := none
            filename := none } := by
  decide

/-- Claim C8, counterexample.  The claim states that `verify` returns
`false` (not an error) when the digests differ.  The code disagrees: on a
mismatch `HashVerifier::verify_package_hash` returns
`Err("SHA256 hash verification failed")` — the repository's own test
(`test_hash_verification`) asserts `is_err()` on this very input. -/
theorem C8_hash_mismatch_is_an_error :
    Hash.verify_package_hash (strBytes "test data")
      "916f0023a0d5e5904614e65e77b3818a6d5e7e1a5b5c5e5e5e5e5e5e5e5e5e5e5" =
      .error "SHA256 hash verification failed" := by
  decide

/-- Claim C9.  The claim states that the temporary files written for the
external verifier are unlinked on **every** exit path of
`verify_inrelease` and `verify_release_with_sig`.  The code disagrees:
the `Command::output()?` early return happens after the files are written
and before they are removed, so when spawning `gpg` fails the files are
left behind (first three conjuncts), while the paths that do reach the
cleanup lines remove them (last two conjuncts, here for a
failed-verification process outcome). -/
theorem C9_temp_files_leak_on_command_error :
    (Gpg.verify_inrelease gpgWorldNoRun [] [1, 2, 3]).2 = ["/tmp/inrelease_temp"] ∧
    (Gpg.verify_inrelease gpgWorldNoRun [] [1, 2, 3]).1 = .error "failed to run gpg" ∧
    (Gpg.verify_release_with_sig gpgWorldNoRun [] [1] [2]).2 =
      ["/tmp/release_sig_temp", "/tmp/release_temp"] ∧
    (Gpg.verify_inrelease gpgWorldFail [] [1, 2, 3]).2 = [] ∧
    (Gpg.verify_release_with_sig gpgWorldFail [] [1] [2]).2 = [] := by
  decide

end Aptg

namespace Aptg

open Aptg.Mirror Aptg.Cache Aptg.Policy Aptg.Geo Aptg.Gpg Aptg.Audit Aptg.Server

/-- Helper: the risk score of any location lies in `[40, 100]` (base 50;
the only subtraction is the −10 low-risk adjustment; the cap is 100). -/
theorem risk_score_bounds (l : LocationInfo) :
    40 ≤ get_risk_score l ∧ get_risk_score l ≤ 100 := by
  unfold get_risk_score
  dsimp only
  split_ifs <;> simp [Nat.min_def]

/-- Claim C10.  `LocationInfo::get_risk_score` always returns a value
between 40 and 100 inclusive, so a `RiskScore` condition whose `max`
bound is below 40 matches no location. -/
theorem C10_risk_score_window :
    (∀ l : LocationInfo, 40 ≤ get_risk_score l ∧ get_risk_score l ≤ 100) ∧
    (∀ (env : GeoEnv) (l : LocationInfo) (mn : Option Nat) (mx : Nat), mx < 40 →
      evaluate_condition env (.RiskScore mn (some mx)) l = false) := by
  refine ⟨risk_score_bounds, ?_⟩
  intro env l mn mx hmx
  have h40 := (risk_score_bounds l).1
  have hle : decide (get_risk_score l ≤ mx) = false := by
    simp only [decide_eq_false_iff_not]
    omega
  unfold evaluate_condition
  cases mn <;> simp [hle]

/-- Witness for claim C10 at the concrete location `locUS` and the
concrete window `max = 10 < 40`. -/
theorem C10_risk_score_window_witness :
    (40 ≤ get_risk_score locUS ∧ get_risk_score locUS ≤ 100) ∧
    evaluate_condition env0 (.RiskScore none (some 10)) locUS = false :=
  ⟨C10_risk_score_window.1 locUS,
    C10_risk_score_window.2 env0 locUS none 10 (by decide)⟩

/-- Claim C8, amended.  `HashVerifier::verify_package_hash` returns
`Ok(true)` exactly when the lower-case hex SHA-256 digest of the data
equals the expected string, and never returns `Ok(false)` — a mismatch
is reported as an error instead. -/
theorem C8_verify_hash_is_ok_true_or_error (data : List Nat) (expected : String) :
    (Hash.verify_package_hash data expected = .ok true ↔
      Hash.sha256Hex data = expected) ∧
    Hash.verify_package_hash data expected ≠ .ok false := by
  unfold Hash.verify_package_hash
  by_cases h : Hash.sha256Hex data = expected <;> simp [h]

end Aptg

namespace Aptg

open Aptg.Mirror Aptg.Cache Aptg.Policy Aptg.Geo Aptg.Gpg Aptg.Audit Aptg.Server

/-- Claim C7, amended.  Path parsing is a deterministic function, and
every successfully parsed `Package` path has `component` and `filename`
present.  (The `Release` half of the original claim fails: the suite is
taken verbatim from the second path segment and may be empty, see the
counterexample.) -/
theorem C7_parse_deterministic_and_package_invariant (p : String) (dp : DebianPath)
    (h : parse_debian_path p = .ok dp) :
    parse_debian_path p = parse_debian_path p ∧
    (dp.path_type = .Package → dp.component.isSome ∧ dp.filename.isSome) := by
  refine ⟨rfl, ?_⟩
  intro hP
  unfold parse_debian_path at h
  dsimp only at h
  split at h
  · cases h
  · split at h
    · unfold parse_release_path at h
      dsimp only at h
      split at h
      · cases h
      · have := Except.ok.inj h
        subst this
        simp at hP
    · split at h
      · unfold parse_package_path at h
        dsimp only at h
        split at h
        · cases h
        · rename_i hlen
          have := Except.ok.inj h
          subst this
          constructor
          · rcases hp : (strSplit '/' (strDrop p 8)).filter (fun s => ¬ s.isEmpty) with
              _ | ⟨a, _ | ⟨b, rest⟩⟩
            · rw [hp] at hlen; simp at hlen
            · rw [hp] at hlen; simp at hlen
            · simp only [hp]; simp
          · rcases hp : (strSplit '/' (strDrop p 8)).filter (fun s => ¬ s.isEmpty) with
              _ | ⟨a, t⟩
            · rw [hp] at hlen; simp at hlen
            · simp only [hp]; simp [List.getLast?_eq_none_iff]
      · cases h

/-- Witness for claim C7 at a concrete pool path. -/
theorem C7_parse_deterministic_and_package_invariant_witness :
    parse_debian_path "/debian/pool/main/a/apt/apt_2.6.1_amd64.deb" =
      parse_debian_path "/debian/pool/main/a/apt/apt_2.6.1_amd64.deb" ∧
    ((⟨.Package, "", some "main", none, some "apt_2.6.1_amd64.deb"⟩ :
        DebianPath).path_type = .Package →
      (⟨.Package, "", some "main", none, some "apt_2.6.1_amd64.deb"⟩ :
        DebianPath).component.isSome ∧
      (⟨.Package, "", some "main", none, some "apt_2.6.1_amd64.deb"⟩ :
        DebianPath).filename.isSome) :=
  C7_parse_deterministic_and_package_invariant
    "/debian/pool/main/a/apt/apt_2.6.1_amd64.deb"
    ⟨.Package, "", some "main", none, some "apt_2.6.1_amd64.deb"⟩ (by decide)

/-- Claim C6, amended.  For the numeric operators `gt`/`lt`/`ge`/`le`,
the condition evaluates to `false` whenever the looked-up **field** value
fails to parse as a float (also when the field name is unknown).  A rule
**value** that fails to parse is not failed false but replaced by `0.0`
(`value.parse().unwrap_or(0.0)`), see the counterexample. -/
theorem C6_numeric_field_parse_failure_is_false
    (field op value : String) (l : LocationInfo)
    (hop : op = "gt" ∨ op = "lt" ∨ op = "ge" ∨ op = "le")
    (hfv : ∀ fv, lookup_custom_field field l = some fv → parseF64? fv = none) :
    evaluate_custom_field field op value l = false := by
  unfold evaluate_custom_field
  cases hl : lookup_custom_field field l with
  | none => rfl
  | some fv =>
    have hp := hfv fv hl
    rcases hop with rfl | rfl | rfl | rfl <;>
      simp +decide [hp]

/-- Witness for claim C6: `locUS` has no city, so the `city` field reads
as the empty string, which does not parse as a float. -/
theorem C6_numeric_field_parse_failure_is_false_witness :
    evaluate_custom_field "city" "gt" "5" locUS = false :=
  C6_numeric_field_parse_failure_is_false "city" "gt" "5" locUS (Or.inl rfl)
    (fun fv h => by
      have h' : some "" = some fv := h
      cases h'
      decide)

end Aptg

namespace Aptg.Geo

/-- Helper: `matchingRules` on a cons. -/
theorem matchingRules_cons (env : GeoEnv) (loc : LocationInfo) (r : GeoRule)
    (rest : List GeoRule) :
    matchingRules env loc (r :: rest) =
      if r.enabled && evaluate_condition env r.condition loc then
        r :: matchingRules env loc rest
      else
        matchingRules env loc rest := by
  simp only [matchingRules, List.filter_cons]

/-- Helper: the selection loop over all rules equals the plain priority
loop over the enabled matching rules. -/
theorem foldl_ruleStep_eq_filter (env : GeoEnv) (loc : LocationInfo) :
    ∀ (rules : List GeoRule) (acc : Option GeoRule × Nat),
      rules.foldl (ruleStep env loc) acc =
        (matchingRules env loc rules).foldl prioStep acc := by
  intro rules
  induction rules with
  | nil => intro acc; rfl
  | cons r rest ih =>
    intro acc
    rw [List.foldl_cons, matchingRules_cons]
    by_cases he : r.enabled
    · by_cases hm : evaluate_condition env r.condition loc
      · rw [if_pos (by simp [he, hm]), List.foldl_cons,
          show ruleStep env loc acc r = prioStep acc r by simp [ruleStep, he, hm, prioStep],
          ih]
      · rw [if_neg (by simp [he, hm]),
          show ruleStep env loc acc r = acc by simp [ruleStep, he, hm], ih]
    · rw [if_neg (by simp [he]),
        show ruleStep env loc acc r = acc by simp [ruleStep, he], ih]

/-- Helper: the priority loop keeps the first candidate attaining the
maximal priority, provided that maximum strictly exceeds the initial
`highest_priority` value `m`; otherwise the accumulator survives. -/
theorem foldl_prioStep_spec :
    ∀ (cands : List GeoRule) (a : Option GeoRule) (m : Nat),
      cands.foldl prioStep (a, m) =
        if maxPriority cands > m then
          (cands.find? (fun r => r.priority = maxPriority cands), maxPriority cands)
        else
          (a, m) := by
  intro cands
  induction cands with
  | nil => intro a m; simp [maxPriority]
  | cons r rest ih =>
    intro a m
    have hmax : maxPriority (r :: rest) = max r.priority (maxPriority rest) := rfl
    by_cases h1 : r.priority > m
    · rw [List.foldl_cons, show prioStep (a, m) r = (some r, r.priority) from if_pos h1,
        ih]
      by_cases h2 : maxPriority rest > r.priority
      · rw [if_pos h2]
        have hm2 : max r.priority (maxPriority rest) = maxPriority rest :=
          Nat.max_eq_right (Nat.le_of_lt h2)
        rw [if_pos (by rw [hmax, hm2]; omega)]
        rw [List.find?_cons_of_neg _ (by simp [hmax, hm2]; omega)]
        simp [hmax, hm2]
      · have h2' : maxPriority rest ≤ r.priority := Nat.le_of_not_lt h2
        have hm2 : max r.priority (maxPriority rest) = r.priority := Nat.max_eq_left h2'
        rw [if_neg h2]
        rw [if_pos (by rw [hmax, hm2]; omega)]
        rw [List.find?_cons_of_pos _ (by simp [hmax, hm2])]
        simp [hmax, hm2]
    · have h1' : r.priority ≤ m := Nat.le_of_not_lt h1
      rw [List.foldl_cons, show prioStep (a, m) r = (a, m) from if_neg h1, ih]
      by_cases h2 : maxPriority rest > m
      · have hm2 : max r.priority (maxPriority rest) = maxPriority rest :=
          Nat.max_eq_right (by omega)
        rw [if_pos h2, if_pos (by rw [hmax, hm2]; omega)]
        rw [List.find?_cons_of_neg _ (by simp [hmax, hm2]; omega)]
        simp [hmax, hm2]
      · rw [if_neg h2, if_neg (by rw [hmax]; omega)]

end Aptg.Geo

namespace Aptg

open Aptg.Mirror Aptg.Cache Aptg.Policy Aptg.Geo Aptg.Gpg Aptg.Audit Aptg.Server

/-- Claim C5, amended.  When the engine is enabled and the database
lookup yields a location, `check_request` returns the action of
`selectedRule`: the first enabled matching rule of maximal priority
**provided that maximal priority is at least 1** (on equal priority the
first in the sequence wins), and `default_action` otherwise — so an
enabled matching rule of priority 0 is never selected and
`default_action` also applies when only priority-0 rules match. -/
theorem C5_geo_rule_selection (env : GeoEnv) (engine : GeoPolicyEngine)
    (db : GeoIpDatabase) (loc : LocationInfo) (ip path : String)
    (h1 : engine.policy.enabled = true)
    (h2 : engine.database = some db)
    (h3 : db.lookup ip = .ok (some loc)) :
    Geo.check_request env engine ip path =
      .ok (match Geo.selectedRule env loc engine.policy.rules with
        | some rule =>
          { action := rule.action
            rule_name := some rule.name
            location := loc
            reason := "Matched rule: " ++ rule.name }
        | none =>
          { action := engine.policy.default_action
            rule_name := none
            location := loc
            reason := "No matching rule" }) := by
  unfold Geo.check_request
  rw [h1, h2]
  simp only [Bool.not_true, Bool.false_eq_true, if_false, h3, Option.getD_some]
  rw [foldl_ruleStep_eq_filter, foldl_prioStep_spec]
  by_cases hc : maxPriority (matchingRules env loc engine.policy.rules) > 0
  · simp only [selectedRule, if_pos hc]
    cases hf : List.find?
        (fun r => decide (r.priority = maxPriority (matchingRules env loc engine.policy.rules)))
        (matchingRules env loc engine.policy.rules) <;>
      simp [hf]
  · simp only [selectedRule, if_neg hc]
    simp

/-- Witness for claim C5 at the concrete enabled engine `engineP2`
(single matching rule of priority 2). -/
theorem C5_geo_rule_selection_witness :
    Geo.check_request env0 engineP2 "1.2.3.4" "/debian/dists/bookworm/InRelease" =
      .ok (match Geo.selectedRule env0 locUS engineP2.policy.rules with
        | some rule =>
          { action := rule.action
            rule_name := some rule.name
            location := locUS
            reason := "Matched rule: " ++ rule.name }
        | none =>
          { action := engineP2.policy.default_action
            rule_name := none
            location := locUS
            reason := "No matching rule" }) :=
  C5_geo_rule_selection env0 engineP2 (dbOf locUS) locUS "1.2.3.4"
    "/debian/dists/bookworm/InRelease" rfl rfl rfl

end Aptg

namespace Aptg

open Aptg.Mirror Aptg.Cache Aptg.Policy Aptg.Geo Aptg.Gpg Aptg.Audit Aptg.Server

/-- Helper: the fetch-and-verify tail of the router emits no `GeoIPError`
event. -/
theorem fetch_and_verify_no_geoip_error (env : RouterEnv) (path : String)
    (evs : List AuditEventType) (h : AuditEventType.GeoIPError ∉ evs) :
    AuditEventType.GeoIPError ∉ (fetch_and_verify env path evs).2 := by
  unfold fetch_and_verify
  cases env.fetchResult with
  | error e => simp [h]
  | ok response =>
    dsimp only
    split
    · split
      · split <;> simp [h]
      · simp [h]
    · simp [h]

/-- Helper: `handle_debian_request` never emits a `GeoIPError` event on
any branch (the router has no call to `log_geoip_error`). -/
theorem handle_no_geoip_error (renv : RouterEnv) (pt : String) (m : Method)
    (hs : List (String × String)) (fwd : Option String) :
    AuditEventType.GeoIPError ∉ (handle_debian_request renv pt m hs fwd).2 := by
  unfold handle_debian_request
  dsimp only
  split
  · simp
  · split
    · simp
    · split
      · exact fetch_and_verify_no_geoip_error _ _ _ (by simp)
      · split
        · exact fetch_and_verify_no_geoip_error _ _ _ (by simp)
        · split
          · simp
          · simp
          · exact fetch_and_verify_no_geoip_error _ _ _ (by simp)
          · exact fetch_and_verify_no_geoip_error _ _ _ (by simp)
          · simp

/-- Claim C4, amended.  When the geo engine is enabled but its database
is unavailable, evaluation does **not** reduce to `default_action`:
`check_request` fails with the error `"GeoIP database not available"`,
and the router — which only inspects `Ok` results — silently continues
the pipeline without emitting any `GeoIPError` audit event (indeed no
router branch ever emits one). -/
theorem C4_db_missing_errors_and_router_skips :
    (∀ (env : GeoEnv) (engine : GeoPolicyEngine) (ip path : String),
      engine.policy.enabled = true → engine.database = none →
      Geo.check_request env engine ip path = .error "GeoIP database not available") ∧
    (∀ (renv : RouterEnv) (pt : String) (m : Method)
      (hs : List (String × String)) (fwd : Option String),
      AuditEventType.GeoIPError ∉ (handle_debian_request renv pt m hs fwd).2) := by
  constructor
  · intro env engine ip path h1 h2
    unfold Geo.check_request
    rw [h1, h2]
    simp
  · exact handle_no_geoip_error

/-- Witness for claim C4 at the concrete no-database engine and a
concrete routed request carrying a client IP. -/
theorem C4_db_missing_errors_and_router_skips_witness :
    Geo.check_request env0 engineNoDb "1.2.3.4" "/debian/dists/bookworm/InRelease" =
      .error "GeoIP database not available" ∧
    AuditEventType.GeoIPError ∉
      (handle_debian_request envC4 "dists/bookworm/InRelease" .GET
        [("X-Forwarded-For", "1.2.3.4")] (some "1.2.3.4")).2 :=
  ⟨C4_db_missing_errors_and_router_skips.1 env0 engineNoDb "1.2.3.4"
      "/debian/dists/bookworm/InRelease" rfl rfl,
    C4_db_missing_errors_and_router_skips.2 envC4 "dists/bookworm/InRelease" .GET
      [("X-Forwarded-For", "1.2.3.4")] (some "1.2.3.4")⟩

end Aptg
